import Mathlib

/-!
# Verification of the asteroid collision-risk estimator

Shallow embedding of the collision estimator of this repository
(`calculateCollisionProbability` in the `CollisionAnalysis` component,
together with the `Asteroid` / `CollisionAnalysis` record types).

Modelling choices:
* JavaScript numbers on the probability path (comparisons, `Math.max`,
  `Math.min`, linear arithmetic) are modelled as exact rationals `ℚ`; the
  values occurring there are all rational.
* The physical pipeline (`mass`, `kineticEnergy`, `craterSize`) involves
  `Math.PI` and `Math.pow(·, 0.25)`, so it is modelled over `ℝ`.
* `Date.now()` and `Math.random()` are exposed as explicit parameters
  `now` and `rand` (with `0 ≤ rand < 1` where the claim needs it).
* For the error-handling analysis, a separate model `JSNum` (an option
  type whose `none` is IEEE `NaN`) reproduces the JavaScript semantics of
  `parseFloat` failures flowing through `<`, `-`, `/` and `Math.max`.
  Accessing `close_approach_data[0]` of an empty array yields `undefined`
  and the subsequent field access throws; the thrown `TypeError` is
  modelled by the estimator returning `none`.
-/

/-- One entry of `close_approach_data`, with the two numeric string fields
already parsed (`parseFloat`) to rationals. -/
structure CloseApproach where
  epochDateCloseApproach : ℤ
  relativeVelocityKmPerSec : ℚ
  missDistanceKm : ℚ

/-- The fields of the `Asteroid` record consulted by the estimator.
`diameterMin` / `diameterMax` are `diameter.estimated_diameter_min` and
`diameter.estimated_diameter_max`. -/
structure Asteroid where
  diameterMin : ℚ
  diameterMax : ℚ
  closeApproachData : List CloseApproach
  isPotentiallyHazardousAsteroid : Bool

/-- The `CollisionAnalysis` result record. The purely rational fields stay
in `ℚ`; `kineticEnergy` and `craterSize` involve `π` and a fourth root and
live in `ℝ`. -/
structure CollisionAnalysis where
  willCollide : Bool
  probability : ℚ
  timeToImpact : Option ℚ
  impactVelocity : ℚ
  kineticEnergy : ℝ
  tsunamiRisk : Bool
  craterSize : ℝ

/-- `const earthRadius = 6371` (km). -/
def earthRadius : ℚ := 6371

/-- The tiered, pre-hazard probability: the `if / else if / else` ladder on
`missDistance` (source lines 220-230). -/
def bandProbability (missDistance : ℚ) : ℚ :=
  if missDistance < earthRadius * 2 then
    max 0.1 (1 - missDistance / (earthRadius * 10))
  else if missDistance < earthRadius * 10 then
    max 0.001 (0.1 - missDistance / (earthRadius * 100))
  else
    max 0.0001 (0.01 - missDistance / (earthRadius * 1000))

/-- `willCollide` starts out `false` and is assigned
`missDistance < earthRadius * 1.5` only inside the first distance band. -/
def bandWillCollide (missDistance : ℚ) : Bool :=
  if missDistance < earthRadius * 2 then
    decide (missDistance < earthRadius * 1.5)
  else
    false

/-- `if (asteroid.is_potentially_hazardous_asteroid) probability *= 2`. -/
def hazardAdjusted (probability : ℚ) (isHazardous : Bool) : ℚ :=
  if isHazardous then probability * 2 else probability

/-- `mass = (4/3) * Math.PI * Math.pow(diameter/2, 3) * 2500`
(source line 238; the averaged diameter is used as-is, halved, with no
unit conversion before cubing). -/
noncomputable def mass (diameter : ℝ) : ℝ :=
  (4 / 3) * Real.pi * (diameter / 2) ^ (3 : ℕ) * 2500

/-- `kineticEnergy = 0.5 * mass * Math.pow(velocity * 1000, 2)` joules
(source line 239). -/
noncomputable def kineticEnergy (diameter velocity : ℝ) : ℝ :=
  0.5 * mass diameter * (velocity * 1000) ^ (2 : ℕ)

/-- `craterSize = Math.pow(kineticEnergy / 1e15, 0.25) * 1000`
(source line 240; real exponentiation, `Real.rpow`). -/
noncomputable def craterSize (kE : ℝ) : ℝ :=
  (kE / 1e15) ^ (0.25 : ℝ) * 1000

/-- `365 * 24 * 60 * 60 * 1000` milliseconds: the "one year" window of the
synthetic time-to-impact offset. -/
def millisPerYear : ℚ := 365 * 24 * 60 * 60 * 1000

/-- The estimator core on the already-extracted scalars (source lines
208-251): `missDistance`, `velocity`, the averaged `diameter`, and the
hazard flag, with `Date.now()` and `Math.random()` passed in as `now` and
`rand`. -/
noncomputable def estimateCore (now rand missDistance velocity diameter : ℚ)
    (isHazardous : Bool) : CollisionAnalysis :=
  let probability := bandProbability missDistance
  let willCollide := bandWillCollide missDistance
  let probability2 := hazardAdjusted probability isHazardous
  let kE := kineticEnergy (diameter : ℝ) (velocity : ℝ)
  { willCollide := willCollide
    probability := min probability2 0.95
    timeToImpact := if willCollide then some (now + rand * millisPerYear) else none
    impactVelocity := velocity
    kineticEnergy := kE
    tsunamiRisk := decide ((100 : ℚ) < diameter) && willCollide
    craterSize := craterSize kE }

/-- The estimator on a whole `Asteroid` record. The source reads
`asteroid.close_approach_data[0]` unconditionally; on an empty array that
is `undefined` and the following `.miss_distance` access throws a
`TypeError`, modelled here as `none`. There is no error value of any kind
in the source. -/
noncomputable def calculateCollisionProbability (now rand : ℚ)
    (asteroid : Asteroid) : Option CollisionAnalysis :=
  match asteroid.closeApproachData.head? with
  | none => none
  | some closestApproach =>
      some (estimateCore now rand closestApproach.missDistanceKm
        closestApproach.relativeVelocityKmPerSec
        ((asteroid.diameterMin + asteroid.diameterMax) / 2)
        asteroid.isPotentiallyHazardousAsteroid)

/-! ## JavaScript numeric semantics with NaN

`parseFloat` on a non-numeric string yields `NaN`; every comparison with
`NaN` is `false` and `NaN` is absorbing for `-`, `/` and `Math.max`. The
divisors appearing in the band formulas are nonzero literals, so the
`x / 0 = Infinity` corner of JavaScript division never arises on this
path. -/

/-- A JavaScript number on the probability path: `none` is `NaN`. -/
def JSNum : Type := Option ℚ

/-- `NaN`, the result of `parseFloat` on a non-numeric string. -/
def jsNaN : JSNum := none

/-- JavaScript `<`: any comparison involving `NaN` is `false`. -/
def jsLt : JSNum → JSNum → Bool
  | some a, some b => decide (a < b)
  | _, _ => false

/-- JavaScript `-`: `NaN` absorbing. -/
def jsSub : JSNum → JSNum → JSNum
  | some a, some b => some (a - b)
  | _, _ => none

/-- JavaScript `/` restricted to nonzero rational divisors: `NaN` absorbing. -/
def jsDiv : JSNum → JSNum → JSNum
  | some a, some b => some (a / b)
  | _, _ => none

/-- `Math.max`: returns `NaN` if any argument is `NaN`. -/
def jsMax : JSNum → JSNum → JSNum
  | some a, some b => some (max a b)
  | _, _ => none

/-- The band ladder of source lines 220-230, executed on JavaScript
numbers, so that a `NaN` miss distance can be traced through it. -/
def bandProbabilityJS (missDistance : JSNum) : JSNum :=
  if jsLt missDistance (some (earthRadius * 2)) then
    jsMax (some 0.1) (jsSub (some 1) (jsDiv missDistance (some (earthRadius * 10))))
  else if jsLt missDistance (some (earthRadius * 10)) then
    jsMax (some 0.001) (jsSub (some 0.1) (jsDiv missDistance (some (earthRadius * 100))))
  else
    jsMax (some 0.0001) (jsSub (some 0.01) (jsDiv missDistance (some (earthRadius * 1000))))

/-! ## Projection lemmas for the estimator core -/

theorem estimateCore_willCollide (now rand d v D : ℚ) (hz : Bool) :
    (estimateCore now rand d v D hz).willCollide = bandWillCollide d := rfl

theorem estimateCore_probability (now rand d v D : ℚ) (hz : Bool) :
    (estimateCore now rand d v D hz).probability =
      min (hazardAdjusted (bandProbability d) hz) 0.95 := rfl

theorem estimateCore_timeToImpact (now rand d v D : ℚ) (hz : Bool) :
    (estimateCore now rand d v D hz).timeToImpact =
      if bandWillCollide d then some (now + rand * millisPerYear) else none := rfl

theorem estimateCore_kineticEnergy (now rand d v D : ℚ) (hz : Bool) :
    (estimateCore now rand d v D hz).kineticEnergy =
      kineticEnergy (D : ℝ) (v : ℝ) := rfl

theorem estimateCore_craterSize (now rand d v D : ℚ) (hz : Bool) :
    (estimateCore now rand d v D hz).craterSize =
      craterSize (kineticEnergy (D : ℝ) (v : ℝ)) := rfl

/-- Every band formula is floored, so the pre-hazard probability is at
least `0.0001`. -/
theorem bandProbability_lb (d : ℚ) : 0.0001 ≤ bandProbability d := by
  unfold bandProbability
  split_ifs with h1 h2
  · exact le_trans (by norm_num) (le_max_left _ _)
  · exact le_trans (by norm_num) (le_max_left _ _)
  · exact le_max_left _ _

/-- If the collision flag is set, the miss distance is below
`earthRadius * 1.5`. -/
theorem bandWillCollide_lt (d : ℚ) (h : bandWillCollide d = true) :
    d < earthRadius * 1.5 := by
  unfold bandWillCollide at h
  split_ifs at h with h2
  exact of_decide_eq_true h

/-! ## Claim theorems -/

/-- C1: for miss distance `d ≥ 0` the pre-hazard probability and the
collision flag follow exactly three distance bands with `R = 6371`:
below `2R` the probability is `max 0.1 (1 - d/(10R))` and the flag is
`d < 1.5R`; from `2R` to `10R` it is `max 0.001 (0.1 - d/(100R))` with the
flag false; from `10R` on it is `max 0.0001 (0.01 - d/(1000R))` with the
flag false. -/
theorem c1_three_distance_bands (d : ℚ) (hd : 0 ≤ d) :
    earthRadius = 6371 ∧
    (d < earthRadius * 2 →
      bandProbability d = max 0.1 (1 - d / (earthRadius * 10)) ∧
      (bandWillCollide d = true ↔ d < earthRadius * 1.5)) ∧
    (earthRadius * 2 ≤ d → d < earthRadius * 10 →
      bandProbability d = max 0.001 (0.1 - d / (earthRadius * 100)) ∧
      bandWillCollide d = false) ∧
    (earthRadius * 10 ≤ d →
      bandProbability d = max 0.0001 (0.01 - d / (earthRadius * 1000)) ∧
      bandWillCollide d = false) := by
  refine ⟨rfl, fun h1 => ⟨?_, ?_⟩, fun h2 h3 => ⟨?_, ?_⟩, fun h4 => ⟨?_, ?_⟩⟩
  · rw [bandProbability, if_pos h1]
  · rw [bandWillCollide, if_pos h1]
    exact decide_eq_true_iff
  · rw [bandProbability, if_neg (not_lt.mpr h2), if_pos h3]
  · rw [bandWillCollide, if_neg (not_lt.mpr h2)]
  · have h2' : earthRadius * 2 ≤ d := le_trans (by norm_num [earthRadius]) h4
    rw [bandProbability, if_neg (not_lt.mpr h2'), if_neg (not_lt.mpr h4)]
  · have h2' : earthRadius * 2 ≤ d := le_trans (by norm_num [earthRadius]) h4
    rw [bandWillCollide, if_neg (not_lt.mpr h2')]

/-- C1 witness at `d = 5000`. -/
theorem c1_three_distance_bands_witness :
    (0 : ℚ) ≤ 5000 ∧
    (earthRadius = 6371 ∧
    ((5000 : ℚ) < earthRadius * 2 →
      bandProbability 5000 = max 0.1 (1 - 5000 / (earthRadius * 10)) ∧
      (bandWillCollide 5000 = true ↔ (5000 : ℚ) < earthRadius * 1.5)) ∧
    (earthRadius * 2 ≤ 5000 → (5000 : ℚ) < earthRadius * 10 →
      bandProbability 5000 = max 0.001 (0.1 - 5000 / (earthRadius * 100)) ∧
      bandWillCollide 5000 = false) ∧
    (earthRadius * 10 ≤ 5000 →
      bandProbability 5000 = max 0.0001 (0.01 - 5000 / (earthRadius * 1000)) ∧
      bandWillCollide 5000 = false)) :=
  ⟨by norm_num, c1_three_distance_bands 5000 (by norm_num)⟩

/-- C2: the claim says an empty `closeApproaches` yields a
`MissingApproachData` error and unparseable numbers yield
`InvalidOrbitalData`, with no crash and no `NaN`. The code has no error
value at all: on an empty `close_approach_data` the `[0]` access gives
`undefined` and the next field access throws (first conjunct: the run
produces nothing), and a `NaN` miss distance flows through the band ladder
straight into the probability (second conjunct). -/
theorem c2_empty_crashes_and_nan_propagates :
    calculateCollisionProbability 0 0 (Asteroid.mk 0 0 [] false) = none ∧
    bandProbabilityJS jsNaN = jsNaN :=
  ⟨rfl, rfl⟩

/-- C5: the `willCollide` field is true exactly when the consulted miss
distance is below `1.5 * 6371`. -/
theorem c5_willCollide_iff_close (now rand d v D : ℚ) (hz : Bool) :
    (estimateCore now rand d v D hz).willCollide = true ↔ d < 1.5 * 6371 := by
  rw [estimateCore_willCollide]
  constructor
  · intro h
    have h1 := bandWillCollide_lt d h
    rw [earthRadius] at h1
    linarith
  · intro h
    have h2 : d < earthRadius * 2 := by rw [earthRadius]; linarith
    rw [bandWillCollide, if_pos h2]
    exact decide_eq_true (by rw [earthRadius]; linarith)

/-- C6: the hazardous flag doubles the pre-clamp probability exactly, and
the final probability is the minimum of the pre-clamp value and `0.95`. -/
theorem c6_hazard_doubles_preclamp (now rand d v D : ℚ) :
    hazardAdjusted (bandProbability d) true =
      2 * hazardAdjusted (bandProbability d) false ∧
    ∀ hz : Bool, (estimateCore now rand d v D hz).probability =
      min (hazardAdjusted (bandProbability d) hz) 0.95 := by
  refine ⟨?_, fun hz => rfl⟩
  simp [hazardAdjusted, mul_comm]

/-- C9: with the time and randomness sources pinned, two runs of the
estimator on the same record agree, field by field. -/
theorem c9_two_run_determinism (now rand : ℚ) (a : Asteroid)
    (d v D : ℚ) (hz : Bool) :
    calculateCollisionProbability now rand a =
      calculateCollisionProbability now rand a ∧
    (estimateCore now rand d v D hz).willCollide =
      (estimateCore now rand d v D hz).willCollide ∧
    (estimateCore now rand d v D hz).probability =
      (estimateCore now rand d v D hz).probability ∧
    (estimateCore now rand d v D hz).timeToImpact =
      (estimateCore now rand d v D hz).timeToImpact ∧
    (estimateCore now rand d v D hz).impactVelocity =
      (estimateCore now rand d v D hz).impactVelocity ∧
    (estimateCore now rand d v D hz).kineticEnergy =
      (estimateCore now rand d v D hz).kineticEnergy ∧
    (estimateCore now rand d v D hz).tsunamiRisk =
      (estimateCore now rand d v D hz).tsunamiRisk ∧
    (estimateCore now rand d v D hz).craterSize =
      (estimateCore now rand d v D hz).craterSize :=
  ⟨rfl, rfl, rfl, rfl, rfl, rfl, rfl, rfl⟩

/-- C4: for nonnegative miss distance, velocity and diameter (hazard flag
either value) the probability field lies in `[0, 0.95]`. -/
theorem c4_probability_in_range (now rand d v D : ℚ) (hz : Bool)
    (hd : 0 ≤ d) (hv : 0 ≤ v) (hD : 0 ≤ D) :
    0 ≤ (estimateCore now rand d v D hz).probability ∧
    (estimateCore now rand d v D hz).probability ≤ 0.95 := by
  rw [estimateCore_probability]
  refine ⟨le_min ?_ (by norm_num), min_le_right _ _⟩
  have hp := bandProbability_lb d
  cases hz <;> simp [hazardAdjusted] <;> nlinarith

/-- C4 witness at `d = 5000`, `v = 20`, `D = 1`, hazardous. -/
theorem c4_probability_in_range_witness :
    0 ≤ (estimateCore 0 0 5000 20 1 true).probability ∧
    (estimateCore 0 0 5000 20 1 true).probability ≤ 0.95 :=
  c4_probability_in_range 0 0 5000 20 1 true (by norm_num) (by norm_num)
    (by norm_num)

/-- C7: the `timeToImpact` field is present exactly when `willCollide` is
true, and is then the pinned current time plus an offset in
`[0, one year)` milliseconds. -/
theorem c7_timeToImpact_iff_collide (now rand d v D : ℚ) (hz : Bool)
    (h0 : 0 ≤ rand) (h1 : rand < 1) :
    ((estimateCore now rand d v D hz).timeToImpact.isSome = true ↔
      (estimateCore now rand d v D hz).willCollide = true) ∧
    ((estimateCore now rand d v D hz).willCollide = true →
      ∃ off : ℚ, 0 ≤ off ∧ off < millisPerYear ∧
        (estimateCore now rand d v D hz).timeToImpact = some (now + off)) := by
  rw [estimateCore_timeToImpact, estimateCore_willCollide]
  cases hwc : bandWillCollide d
  · simp [hwc]
  · refine ⟨by simp [hwc], fun _ => ⟨rand * millisPerYear,
      mul_nonneg h0 (by norm_num [millisPerYear]), ?_, by simp [hwc]⟩⟩
    calc rand * millisPerYear < 1 * millisPerYear :=
          mul_lt_mul_of_pos_right h1 (by norm_num [millisPerYear])
      _ = millisPerYear := one_mul _

/-- C7 witness at `now = 0`, `rand = 1/2`, `d = 5000`. -/
theorem c7_timeToImpact_iff_collide_witness :
    ((estimateCore 0 (1/2) 5000 20 1 false).timeToImpact.isSome = true ↔
      (estimateCore 0 (1/2) 5000 20 1 false).willCollide = true) ∧
    ((estimateCore 0 (1/2) 5000 20 1 false).willCollide = true →
      ∃ off : ℚ, 0 ≤ off ∧ off < millisPerYear ∧
        (estimateCore 0 (1/2) 5000 20 1 false).timeToImpact = some (0 + off)) :=
  c7_timeToImpact_iff_collide 0 (1/2) 5000 20 1 false (by norm_num)
    (by norm_num)

/-- C10: whenever the result's `willCollide` flag is set, the final
(post-doubling, post-clamp) probability lies in `[0.85, 0.95]`. -/
theorem c10_collision_implies_high_probability (now rand d v D : ℚ)
    (hz : Bool)
    (hwc : (estimateCore now rand d v D hz).willCollide = true) :
    0.85 ≤ (estimateCore now rand d v D hz).probability ∧
    (estimateCore now rand d v D hz).probability ≤ 0.95 := by
  rw [estimateCore_willCollide] at hwc
  rw [estimateCore_probability]
  have h15 := bandWillCollide_lt d hwc
  have h2 : d < earthRadius * 2 :=
    lt_of_lt_of_le h15 (by norm_num [earthRadius])
  have hband : (0.85 : ℚ) < bandProbability d := by
    rw [bandProbability, if_pos h2]
    have hlin : (0.85 : ℚ) < 1 - d / (earthRadius * 10) := by
      rw [earthRadius] at h15 ⊢
      rw [lt_sub_iff_add_lt]
      have : d / (6371 * 10 : ℚ) < 0.15 := by
        rw [div_lt_iff₀ (by norm_num : (0:ℚ) < 6371 * 10)]
        linarith
      linarith
    exact lt_of_lt_of_le hlin (le_max_right _ _)
  refine ⟨le_min ?_ (by norm_num), min_le_right _ _⟩
  cases hz <;> simp [hazardAdjusted] <;> linarith

/-- C10 witness at `d = 5000`. -/
theorem c10_collision_implies_high_probability_witness :
    0.85 ≤ (estimateCore 0 0 5000 20 1 false).probability ∧
    (estimateCore 0 0 5000 20 1 false).probability ≤ 0.95 :=
  c10_collision_implies_high_probability 0 0 5000 20 1 false (by
    rw [estimateCore_willCollide, bandWillCollide,
      if_pos (by norm_num [earthRadius] : (5000 : ℚ) < earthRadius * 2)]
    exact decide_eq_true (by norm_num [earthRadius]))

/-- C3 counterexample: at averaged diameter `D = 2` the mass computed by
the code, `(4/3)·π·(2/2)³·2500`, differs from the claimed
`(4/3)·π·(D·500)³·2500`; the source never converts the diameter from
kilometers to meters before cubing. -/
theorem c3_counterexample :
    ¬ mass 2 = (4 / 3) * Real.pi * ((2 : ℝ) * 500) ^ (3 : ℕ) * 2500 := by
  intro h
  rw [mass] at h
  have hpi := Real.pi_pos
  nlinarith [h, hpi]

/-- C3 amended: the mass is `(4/3)·π·(D/2)³·2500` with the averaged
diameter used as-is (halved, no unit conversion before cubing), and the
kinetic energy is `0.5 · mass · (v·1000)²` joules. -/
theorem c3_amended_mass_energy (D v : ℝ) :
    mass D = (4 / 3) * Real.pi * (D / 2) ^ (3 : ℕ) * 2500 ∧
    kineticEnergy D v = 0.5 * mass D * (v * 1000) ^ (2 : ℕ) :=
  ⟨rfl, rfl⟩

/-- C8: for nonnegative inputs the kinetic energy and the crater diameter
are nonnegative, the kinetic energy is degree-3 homogeneous in the
diameter and degree-2 homogeneous in the velocity, and the crater diameter
is `(E / 1e15)^0.25 · 1000`, hence scales as `E^0.25`. -/
theorem c8_energy_crater_scaling (D v t : ℝ)
    (hD : 0 ≤ D) (hv : 0 ≤ v) (ht : 0 ≤ t) :
    0 ≤ kineticEnergy D v ∧
    0 ≤ craterSize (kineticEnergy D v) ∧
    (∀ a b : ℝ, kineticEnergy (a * D) (b * v) =
      a ^ (3 : ℕ) * b ^ (2 : ℕ) * kineticEnergy D v) ∧
    craterSize (kineticEnergy D v) =
      (kineticEnergy D v / 1e15) ^ (0.25 : ℝ) * 1000 ∧
    craterSize (t * kineticEnergy D v) =
      t ^ (0.25 : ℝ) * craterSize (kineticEnergy D v) := by
  have hmass : 0 ≤ mass D := by
    rw [mass]
    exact mul_nonneg (mul_nonneg (mul_nonneg (by norm_num) Real.pi_pos.le)
      (pow_nonneg (by linarith) 3)) (by norm_num)
  have hE : 0 ≤ kineticEnergy D v := by
    rw [kineticEnergy]
    exact mul_nonneg (mul_nonneg (by norm_num) hmass) (sq_nonneg _)
  refine ⟨hE, ?_, ?_, rfl, ?_⟩
  · rw [craterSize]
    exact mul_nonneg (Real.rpow_nonneg (div_nonneg hE (by norm_num)) _)
      (by norm_num)
  · intro a b
    rw [kineticEnergy, kineticEnergy, mass, mass]
    ring
  · rw [craterSize, craterSize, mul_div_assoc,
      Real.mul_rpow ht (div_nonneg hE (by norm_num))]
    ring

/-- C8 witness at `D = 2`, `v = 3`, `t = 4`. -/
theorem c8_energy_crater_scaling_witness :
    0 ≤ kineticEnergy 2 3 ∧
    0 ≤ craterSize (kineticEnergy 2 3) ∧
    (∀ a b : ℝ, kineticEnergy (a * 2) (b * 3) =
      a ^ (3 : ℕ) * b ^ (2 : ℕ) * kineticEnergy 2 3) ∧
    craterSize (kineticEnergy 2 3) =
      (kineticEnergy 2 3 / 1e15) ^ (0.25 : ℝ) * 1000 ∧
    craterSize (4 * kineticEnergy 2 3) =
      (4 : ℝ) ^ (0.25 : ℝ) * craterSize (kineticEnergy 2 3) :=
  c8_energy_crater_scaling 2 3 4 (by norm_num) (by norm_num) (by norm_num)
